import Mathlib

/-!
Verification of the PID temperature-control simulation.

The development shallowly embeds the three source modules of the repository:

* `pid_controller.py` — the `PIDController` class (`update`, `reset`);
* `temperature_system.py` — the `TemperatureSystem` plant model and the
  `run_simulation` loop;
* `ui_plot.py` — the numeric part of `print_performance` (settling-time
  detection, overshoot, mean squared error).

Python floats are modelled as rational numbers `ℚ`; mutation of the
`PIDController` and `TemperatureSystem` objects is modelled by explicit
state passing (each operation returns the post-state).  Python runtime
errors (the `IndexError` raised by `setpoints[0]` on an empty array and
the `ValueError` raised by `np.max` on an empty array) are modelled by
`Option`: `none` means the computation raises.
-/

/-- State of `PIDController` (`pid_controller.py`): the three gains, the
setpoint, and the two internal accumulators `integral` and `prev_error`
(both `0.0` after `__init__`). -/
structure PIDController where
  Kp : ℚ
  Ki : ℚ
  Kd : ℚ
  setpoint : ℚ
  integral : ℚ
  prev_error : ℚ

/-- The constructor `PIDController.__init__`: stores the gains and the
setpoint and zeroes the internal state. -/
def PIDController.init (Kp Ki Kd setpoint : ℚ) : PIDController :=
  { Kp := Kp, Ki := Ki, Kd := Kd, setpoint := setpoint,
    integral := 0, prev_error := 0 }

/-- Result of one `PIDController.update` call: the returned tuple
`(output, P, I, D)` plus the post-state of the (mutated) controller. -/
structure PIDResult where
  output : ℚ
  P : ℚ
  I : ℚ
  D : ℚ
  ctrl : PIDController

/-- `PIDController.update(current_value, dt)` from `pid_controller.py`:
`error = setpoint - current_value`; `P = Kp * error`;
`integral += error * dt`; `I = Ki * integral`;
`derivative = (error - prev_error) / dt` when `dt > 0`, else `0`;
`D = Kd * derivative`; `prev_error = error`; `output = P + I + D`. -/
def PIDController.update (c : PIDController) (current_value dt : ℚ) : PIDResult :=
  let error := c.setpoint - current_value
  let P := c.Kp * error
  let integral := c.integral + error * dt
  let I := c.Ki * integral
  let derivative := if dt > 0 then (error - c.prev_error) / dt else 0
  let D := c.Kd * derivative
  let output := P + I + D
  { output := output, P := P, I := I, D := D,
    ctrl := { c with integral := integral, prev_error := error } }

/-- `PIDController.reset()`: sets `integral = 0` and `prev_error = 0`. -/
def PIDController.reset (c : PIDController) : PIDController :=
  { c with integral := 0, prev_error := 0 }

/-- State of `TemperatureSystem` (`temperature_system.py`): current
temperature, ambient temperature, and the two thermal constants. -/
structure TemperatureSystem where
  temp : ℚ
  ambient : ℚ
  heat_capacity : ℚ
  cooling_rate : ℚ

/-- The constructor `TemperatureSystem.__init__`: stores the initial and
ambient temperatures and fixes `heat_capacity = 5.0`,
`cooling_rate = 0.03`. -/
def TemperatureSystem.init (initial_temp ambient_temp : ℚ) : TemperatureSystem :=
  { temp := initial_temp, ambient := ambient_temp,
    heat_capacity := 5, cooling_rate := 3 / 100 }

/-- `TemperatureSystem.update(heater_power, dt)`:
`heating = heater_power / heat_capacity`;
`cooling = cooling_rate * (temp - ambient)`;
`temp += (heating - cooling) * dt`.  The Python method returns the new
`self.temp`; here the post-state carries it in its `temp` field. -/
def TemperatureSystem.update (s : TemperatureSystem) (heater_power dt : ℚ) :
    TemperatureSystem :=
  let heating := heater_power / s.heat_capacity
  let cooling := s.cooling_rate * (s.temp - s.ambient)
  { s with temp := s.temp + (heating - cooling) * dt }

/-- Scalar `np.clip(a, a_min, a_max)`: `min (max a a_min) a_max`. -/
def np_clip (a a_min a_max : ℚ) : ℚ := min (max a a_min) a_max

/-- One row of the data recorded per loop iteration of `run_simulation`:
the values appended to the seven parallel lists at step `i`. -/
structure SimEntry where
  time : ℚ
  temperature : ℚ
  setpoint : ℚ
  heater_power : ℚ
  P : ℚ
  I : ℚ
  D : ℚ

/-- The mutable state threaded through the simulation loop: the PID
controller object and the temperature system object. -/
structure SimState where
  pid : PIDController
  sys : TemperatureSystem

/-- The body of one iteration of the loop in `run_simulation`
(`temperature_system.py`, step index `i`): read the current temperature,
run the controller, clip its output to `[0, 100]`, update the plant, and
record the row appended to the seven lists.  Returns the recorded row and
the post-loop-iteration state. -/
def simStep (target_temp dt : ℚ) (i : ℕ) (st : SimState) : SimEntry × SimState :=
  let current_time := (i : ℚ) * dt
  let current_temp := st.sys.temp
  let r := st.pid.update current_temp dt
  let heater_power := np_clip r.output 0 100
  ({ time := current_time, temperature := current_temp, setpoint := target_temp,
     heater_power := heater_power, P := r.P, I := r.I, D := r.D },
   { pid := r.ctrl, sys := st.sys.update heater_power dt })

/-- The simulation loop `for i in range(time_steps)` of `run_simulation`,
started at index `i` with `n` iterations remaining: collects the rows
recorded by each iteration in order. -/
def simLoop (target_temp dt : ℚ) : ℕ → ℕ → SimState → List SimEntry
  | _, 0, _ => []
  | i, n + 1, st =>
      (simStep target_temp dt i st).1 ::
        simLoop target_temp dt (i + 1) n (simStep target_temp dt i st).2

/-- The loop state reached after `k` iterations of the simulation loop
(the step index does not influence the state evolution, only the recorded
`time` column, so it is not a parameter here). -/
def stepIter (target_temp dt : ℚ) : ℕ → SimState → SimState
  | 0, st => st
  | k + 1, st => stepIter target_temp dt k (simStep target_temp dt 0 st).2

/-- The dictionary returned by `run_simulation`: the seven parallel data
lists plus the echoed gains. -/
structure SimRecord where
  times : List ℚ
  temperatures : List ℚ
  setpoints : List ℚ
  heater_powers : List ℚ
  p_terms : List ℚ
  i_terms : List ℚ
  d_terms : List ℚ
  Kp : ℚ
  Ki : ℚ
  Kd : ℚ

/-- `run_simulation(Kp, Ki, Kd, target_temp, sim_time)` from
`temperature_system.py`: `dt = 0.1`, `time_steps = int(sim_time / dt)`
(for a nonnegative quotient Python `int` truncation is the floor; for a
negative one the loop runs zero times, matching `Int.toNat`), a fresh
controller with `setpoint = target_temp`, a fresh system at 25 °C in a
25 °C ambient, then the main loop.  The seven recorded lists are the
per-column projections of the recorded rows. -/
def run_simulation (Kp Ki Kd target_temp sim_time : ℚ) : SimRecord :=
  let dt : ℚ := 1 / 10
  let time_steps : ℕ := (⌊sim_time / dt⌋).toNat
  let pid := PIDController.init Kp Ki Kd target_temp
  let system := TemperatureSystem.init 25 25
  let entries := simLoop target_temp dt 0 time_steps { pid := pid, sys := system }
  { times := entries.map (fun e => e.time),
    temperatures := entries.map (fun e => e.temperature),
    setpoints := entries.map (fun e => e.setpoint),
    heater_powers := entries.map (fun e => e.heater_power),
    p_terms := entries.map (fun e => e.P),
    i_terms := entries.map (fun e => e.I),
    d_terms := entries.map (fun e => e.D),
    Kp := Kp, Ki := Ki, Kd := Kd }

/-- Scalar `np.max` over a list: `none` models the `ValueError` numpy
raises on an empty array. -/
def np_max : List ℚ → Option ℚ
  | [] => none
  | x :: xs => some (xs.foldl max x)

/-- The settling-time search loop of `print_performance` (`ui_plot.py`),
at absolute index `i` with the remaining suffix of `errors`: the first
index whose error is within tolerance and stays within tolerance for the
next `min(50, remaining length)` samples (the window starts at the index
itself, as in `errors[i:i+check_length]`); `none` when the loop finds no
such index (`steady_state_idx` keeps its initial `None`). -/
def steadyGo (tolerance : ℚ) : ℕ → List ℚ → Option ℕ
  | _, [] => none
  | i, e :: rest =>
      if |e| ≤ tolerance ∧
          ∀ x ∈ (e :: rest).take (min 50 (e :: rest).length), |x| ≤ tolerance then
        some i
      else
        steadyGo tolerance (i + 1) rest

/-- The settling-time search of `print_performance` over the whole error
series, starting at index 0. -/
def steadyStateIdx (errors : List ℚ) (tolerance : ℚ) : Option ℕ :=
  steadyGo tolerance 0 errors

/-- The metrics computed by `print_performance`: the settling time that
is printed (`none` for the "not reached" message), the overshoot, the
overshoot percentage, and the mean squared error. -/
structure PerfReport where
  settling_time : Option ℚ
  overshoot : ℚ
  overshoot_percent : ℚ
  mse : ℚ

/-- The numeric content of `print_performance(data)` (`ui_plot.py`):
`errors = setpoints - temps`; `tolerance = setpoints[0] * 0.02` (an
`IndexError` on an empty record, modelled by `none`); the settling-time
search; the printed settling time — the source guards the print with the
truthiness test `if steady_state_idx:`, under which both `None` and the
index `0` select the "not reached" message; `overshoot = np.max(temps) -
setpoints[0]` (a `ValueError` on an empty array, modelled by `none`);
`mse = np.mean(errors**2)`. -/
def print_performance (data : SimRecord) : Option PerfReport :=
  let temps := data.temperatures
  let setpoints := data.setpoints
  let errors := List.zipWith (fun s t => s - t) setpoints temps
  match setpoints.head? with
  | none => none
  | some sp0 =>
      let tolerance := sp0 * (2 / 100)
      let steady_state_idx := steadyStateIdx errors tolerance
      let settling_time : Option ℚ :=
        match steady_state_idx with
        | some i => if i = 0 then none else some (data.times.getD i 0)
        | none => none
      match np_max temps with
      | none => none
      | some max_temp =>
          let overshoot := max_temp - sp0
          let overshoot_percent := overshoot / sp0 * 100
          let mse := (errors.map fun e => e ^ 2).sum / (errors.length : ℚ)
          some { settling_time := settling_time, overshoot := overshoot,
                 overshoot_percent := overshoot_percent, mse := mse }

/-! ### Basic facts about the controller and the plant -/

/-- C3: For every controller state, every current value and every
`dt > 0`, `PIDController.update` returns an output equal to
`Kp*error + Ki*integral_after + Kd*(error - prev_error_before)/dt`, where
`error = setpoint - currentValue` and
`integral_after = integral_before + error*dt`, and the post-state's
`prev_error` equals `error`. -/
theorem pid_update_output_formula (c : PIDController) (v dt : ℚ) (h : 0 < dt) :
    (c.update v dt).output
        = c.Kp * (c.setpoint - v) + c.Ki * (c.integral + (c.setpoint - v) * dt)
          + c.Kd * ((c.setpoint - v) - c.prev_error) / dt
      ∧ (c.update v dt).ctrl.prev_error = c.setpoint - v := by
  constructor
  · simp only [PIDController.update, if_pos h]
    ring
  · simp [PIDController.update]

/-- Witness for `pid_update_output_formula` at a concrete controller
state and `dt = 1/2`. -/
theorem pid_update_output_formula_witness :
    (0 : ℚ) < 1 / 2
      ∧ ((PIDController.mk 2 3 5 7 11 13).update 4 (1 / 2)).output
            = 2 * (7 - 4) + 3 * (11 + (7 - 4) * (1 / 2)) + 5 * ((7 - 4) - 13) / (1 / 2)
      ∧ ((PIDController.mk 2 3 5 7 11 13).update 4 (1 / 2)).ctrl.prev_error = 7 - 4 :=
  ⟨by norm_num,
   (pid_update_output_formula (PIDController.mk 2 3 5 7 11 13) 4 (1 / 2) (by norm_num)).1,
   (pid_update_output_formula (PIDController.mk 2 3 5 7 11 13) 4 (1 / 2) (by norm_num)).2⟩

/-- C4: For every controller state, every current value and every
`dt ≤ 0`, the derivative branch is not taken: the returned `D` term is
exactly 0, while `integral` still advances by `error * dt` and
`prev_error` is still overwritten with the current error. -/
theorem pid_update_nonpos_dt (c : PIDController) (v dt : ℚ) (h : dt ≤ 0) :
    (c.update v dt).D = 0
      ∧ (c.update v dt).ctrl.integral = c.integral + (c.setpoint - v) * dt
      ∧ (c.update v dt).ctrl.prev_error = c.setpoint - v := by
  refine ⟨?_, ?_, ?_⟩
  · simp only [PIDController.update, if_neg (not_lt.mpr h)]
    simp
  · simp [PIDController.update]
  · simp [PIDController.update]

/-- Witness for `pid_update_nonpos_dt` at a concrete controller state
and `dt = 0`. -/
theorem pid_update_nonpos_dt_witness :
    (0 : ℚ) ≤ 0
      ∧ ((PIDController.mk 2 3 5 7 11 13).update 4 0).D = 0
      ∧ ((PIDController.mk 2 3 5 7 11 13).update 4 0).ctrl.integral = 11 + (7 - 4) * 0
      ∧ ((PIDController.mk 2 3 5 7 11 13).update 4 0).ctrl.prev_error = 7 - 4 :=
  ⟨le_refl 0,
   (pid_update_nonpos_dt (PIDController.mk 2 3 5 7 11 13) 4 0 (le_refl 0)).1,
   (pid_update_nonpos_dt (PIDController.mk 2 3 5 7 11 13) 4 0 (le_refl 0)).2.1,
   (pid_update_nonpos_dt (PIDController.mk 2 3 5 7 11 13) 4 0 (le_refl 0)).2.2⟩

/-- C9: `reset` zeroes `integral` and `prev_error` and changes nothing
else: the gains and the setpoint are unchanged. -/
theorem pid_reset_frame (c : PIDController) :
    c.reset.integral = 0 ∧ c.reset.prev_error = 0
      ∧ c.reset.Kp = c.Kp ∧ c.reset.Ki = c.Ki ∧ c.reset.Kd = c.Kd
      ∧ c.reset.setpoint = c.setpoint := by
  simp [PIDController.reset]

/-- C6: Feeding the plant the equilibrium heater power
`cooling_rate * heat_capacity * (temp - ambient)` leaves the temperature
unchanged, for every plant state with a nonzero heat capacity (the data
model requires `heat_capacity > 0`; the constructor fixes it to 5). -/
theorem plant_equilibrium_fixed_point (s : TemperatureSystem) (dt : ℚ)
    (h : s.heat_capacity ≠ 0) :
    (s.update (s.cooling_rate * s.heat_capacity * (s.temp - s.ambient)) dt).temp
      = s.temp := by
  simp only [TemperatureSystem.update]
  field_simp
  ring

/-- Witness for `plant_equilibrium_fixed_point` at a concrete plant state
produced by the constructor. -/
theorem plant_equilibrium_fixed_point_witness :
    (TemperatureSystem.init 40 25).heat_capacity ≠ 0
      ∧ ((TemperatureSystem.init 40 25).update
            ((TemperatureSystem.init 40 25).cooling_rate
              * (TemperatureSystem.init 40 25).heat_capacity
              * ((TemperatureSystem.init 40 25).temp
                  - (TemperatureSystem.init 40 25).ambient)) 2).temp
          = (TemperatureSystem.init 40 25).temp :=
  ⟨by norm_num [TemperatureSystem.init],
   plant_equilibrium_fixed_point (TemperatureSystem.init 40 25) 2
     (by norm_num [TemperatureSystem.init])⟩

/-- C10: For every plant state with positive heat capacity, every
`dt > 0` and heater powers `hp1 < hp2`, the updated temperature from
`hp2` exceeds the one from `hp1` by exactly `(hp2 - hp1) * dt /
heat_capacity`; in particular the update is strictly monotone in the
heater power. -/
theorem plant_update_affine_monotone (s : TemperatureSystem) (dt hp1 hp2 : ℚ)
    (hdt : 0 < dt) (hc : 0 < s.heat_capacity) (h12 : hp1 < hp2) :
    (s.update hp2 dt).temp - (s.update hp1 dt).temp
        = (hp2 - hp1) * dt / s.heat_capacity
      ∧ (s.update hp1 dt).temp < (s.update hp2 dt).temp := by
  have hc0 : s.heat_capacity ≠ 0 := ne_of_gt hc
  constructor
  · simp only [TemperatureSystem.update]
    field_simp
    ring
  · have hpos : 0 < (hp2 - hp1) * dt / s.heat_capacity :=
      div_pos (mul_pos (sub_pos.mpr h12) hdt) hc
    have hdiff : (s.update hp2 dt).temp - (s.update hp1 dt).temp
        = (hp2 - hp1) * dt / s.heat_capacity := by
      simp only [TemperatureSystem.update]
      field_simp
      ring
    linarith

/-- Witness for `plant_update_affine_monotone` at a concrete plant state,
`dt = 1`, and heater powers `10 < 20`. -/
theorem plant_update_affine_monotone_witness :
    (0 : ℚ) < 1 ∧ 0 < (TemperatureSystem.init 30 25).heat_capacity ∧ (10 : ℚ) < 20
      ∧ ((TemperatureSystem.init 30 25).update 20 1).temp
            - ((TemperatureSystem.init 30 25).update 10 1).temp
          = (20 - 10) * 1 / (TemperatureSystem.init 30 25).heat_capacity
      ∧ ((TemperatureSystem.init 30 25).update 10 1).temp
          < ((TemperatureSystem.init 30 25).update 20 1).temp :=
  ⟨by norm_num, by norm_num [TemperatureSystem.init], by norm_num,
   (plant_update_affine_monotone (TemperatureSystem.init 30 25) 1 10 20
      (by norm_num) (by norm_num [TemperatureSystem.init]) (by norm_num)).1,
   (plant_update_affine_monotone (TemperatureSystem.init 30 25) 1 10 20
      (by norm_num) (by norm_num [TemperatureSystem.init]) (by norm_num)).2⟩

/-! ### Structural lemmas about the simulation loop -/

theorem simLoop_length (target_temp dt : ℚ) :
    ∀ (n i : ℕ) (st : SimState), (simLoop target_temp dt i n st).length = n := by
  intro n
  induction n with
  | zero => intro i st; rfl
  | succ n ih => intro i st; simp [simLoop, ih]

theorem simLoop_cons (target_temp dt : ℚ) (i n : ℕ) (st : SimState) :
    simLoop target_temp dt i (n + 1) st
      = (simStep target_temp dt i st).1 ::
          simLoop target_temp dt (i + 1) n (simStep target_temp dt i st).2 := rfl

theorem np_clip_nonneg (a : ℚ) : 0 ≤ np_clip a 0 100 :=
  le_min (le_max_right a 0) (by norm_num)

theorem np_clip_le_top (a : ℚ) : np_clip a 0 100 ≤ 100 := min_le_right _ _

theorem simLoop_mem_heater (target_temp dt : ℚ) :
    ∀ (n i : ℕ) (st : SimState) (e : SimEntry), e ∈ simLoop target_temp dt i n st →
      0 ≤ e.heater_power ∧ e.heater_power ≤ 100 := by
  intro n
  induction n with
  | zero => intro i st e he; simp [simLoop] at he
  | succ n ih =>
      intro i st e he
      rw [simLoop_cons, List.mem_cons] at he
      rcases he with he | he
      · subst he
        exact ⟨np_clip_nonneg _, np_clip_le_top _⟩
      · exact ih _ _ _ he

theorem simLoop_getElem? (target_temp dt : ℚ) :
    ∀ (n i k : ℕ) (st : SimState), k < n →
      (simLoop target_temp dt i n st)[k]?
        = some (simStep target_temp dt (i + k) (stepIter target_temp dt k st)).1 := by
  intro n
  induction n with
  | zero => intro i k st hk; exact absurd hk (Nat.not_lt_zero k)
  | succ n ih =>
      intro i k st hk
      cases k with
      | zero =>
          rw [simLoop_cons]
          simp [stepIter]
      | succ k =>
          have hk' : k < n := Nat.lt_of_succ_lt_succ hk
          rw [simLoop_cons, List.getElem?_cons_succ,
            ih (i + 1) k (simStep target_temp dt i st).2 hk',
            show i + 1 + k = i + (k + 1) by omega]
          rfl

theorem run_simulation_heater_powers (Kp Ki Kd target_temp sim_time : ℚ) :
    (run_simulation Kp Ki Kd target_temp sim_time).heater_powers
      = (simLoop target_temp (1 / 10) 0 ((⌊sim_time / ((1 : ℚ) / 10)⌋).toNat)
          { pid := PIDController.init Kp Ki Kd target_temp,
            sys := TemperatureSystem.init 25 25 }).map (fun e => e.heater_power) := rfl

theorem run_simulation_temperatures (Kp Ki Kd target_temp sim_time : ℚ) :
    (run_simulation Kp Ki Kd target_temp sim_time).temperatures
      = (simLoop target_temp (1 / 10) 0 ((⌊sim_time / ((1 : ℚ) / 10)⌋).toNat)
          { pid := PIDController.init Kp Ki Kd target_temp,
            sys := TemperatureSystem.init 25 25 }).map (fun e => e.temperature) := rfl

theorem run_simulation_times (Kp Ki Kd target_temp sim_time : ℚ) :
    (run_simulation Kp Ki Kd target_temp sim_time).times
      = (simLoop target_temp (1 / 10) 0 ((⌊sim_time / ((1 : ℚ) / 10)⌋).toNat)
          { pid := PIDController.init Kp Ki Kd target_temp,
            sys := TemperatureSystem.init 25 25 }).map (fun e => e.time) := rfl

theorem run_heater_mem_bounds (Kp Ki Kd target_temp sim_time x : ℚ)
    (hx : x ∈ (run_simulation Kp Ki Kd target_temp sim_time).heater_powers) :
    0 ≤ x ∧ x ≤ 100 := by
  rw [run_simulation_heater_powers] at hx
  rcases List.mem_map.mp hx with ⟨e, he, rfl⟩
  exact simLoop_mem_heater target_temp (1 / 10) _ _ _ e he

/-- C5: In every run and at every step, the heater power stored in the
record is `np.clip(output, 0, 100)` of the controller output (that is
how `simStep` constructs the recorded value, and nothing else touches
it), hence every recorded heater power lies in `[0, 100]`; moreover an
output of `1e6` clips to exactly `100` and an output of `-50` clips to
exactly `0`. -/
theorem heater_power_clamped :
    (∀ Kp Ki Kd target_temp sim_time x : ℚ,
        x ∈ (run_simulation Kp Ki Kd target_temp sim_time).heater_powers →
          0 ≤ x ∧ x ≤ 100)
      ∧ np_clip 1000000 0 100 = 100 ∧ np_clip (-50) 0 100 = 0 := by
  refine ⟨?_, by norm_num [np_clip], by norm_num [np_clip]⟩
  intro Kp Ki Kd target_temp sim_time x hx
  exact run_heater_mem_bounds Kp Ki Kd target_temp sim_time x hx

/-- Witness for `heater_power_clamped`: the one-step run with the gains
of `main` saturates the heater, so `100` is a recorded heater power, and
the theorem bounds it by `[0, 100]`. -/
theorem heater_power_clamped_witness :
    (100 : ℚ) ∈ (run_simulation 5 (1 / 10) 1 200 (1 / 10)).heater_powers
      ∧ 0 ≤ (100 : ℚ) ∧ (100 : ℚ) ≤ 100 := by
  have hsteps : ((⌊((1 : ℚ) / 10) / ((1 : ℚ) / 10)⌋).toNat) = 1 := by norm_num
  have hhp : (run_simulation 5 (1 / 10) 1 200 (1 / 10)).heater_powers = [100] := by
    rw [run_simulation_heater_powers, hsteps, show (1 : ℕ) = 0 + 1 from rfl, simLoop_cons]
    norm_num [simLoop, simStep, PIDController.update, PIDController.init,
      TemperatureSystem.init, np_clip, min_def, max_def]
  have hmem : (100 : ℚ) ∈ (run_simulation 5 (1 / 10) 1 200 (1 / 10)).heater_powers := by
    rw [hhp]; exact List.mem_singleton.mpr rfl
  exact ⟨hmem, heater_power_clamped.1 5 (1 / 10) 1 200 (1 / 10) 100 hmem⟩

/-- C8: In every run, the temperature recorded at index `k` is the plant
temperature reached after exactly the first `k` plant updates — i.e. the
temperature read BEFORE step `k`'s control action is applied (`k = 0`
gives the initial temperature, since `stepIter … 0` is the initial
state) — and the heater power recorded at step `k` is the clipped output
of the controller fed exactly that pre-update temperature. -/
theorem recorded_temperature_pre_update (Kp Ki Kd target_temp sim_time : ℚ) (k : ℕ)
    (hk : k < (run_simulation Kp Ki Kd target_temp sim_time).temperatures.length) :
    (run_simulation Kp Ki Kd target_temp sim_time).temperatures.getD k 0
        = (stepIter target_temp (1 / 10) k
            { pid := PIDController.init Kp Ki Kd target_temp,
              sys := TemperatureSystem.init 25 25 }).sys.temp
      ∧ (run_simulation Kp Ki Kd target_temp sim_time).heater_powers.getD k 0
        = np_clip ((stepIter target_temp (1 / 10) k
            { pid := PIDController.init Kp Ki Kd target_temp,
              sys := TemperatureSystem.init 25 25 }).pid.update
              ((run_simulation Kp Ki Kd target_temp sim_time).temperatures.getD k 0)
              (1 / 10)).output 0 100 := by
  have hk' : k < (⌊sim_time / ((1 : ℚ) / 10)⌋).toNat := by
    rw [run_simulation_temperatures, List.length_map, simLoop_length] at hk
    exact hk
  have hloop := simLoop_getElem? target_temp (1 / 10)
    ((⌊sim_time / ((1 : ℚ) / 10)⌋).toNat) 0 k
    { pid := PIDController.init Kp Ki Kd target_temp,
      sys := TemperatureSystem.init 25 25 } hk'
  have h1 : (run_simulation Kp Ki Kd target_temp sim_time).temperatures.getD k 0
      = (stepIter target_temp (1 / 10) k
          { pid := PIDController.init Kp Ki Kd target_temp,
            sys := TemperatureSystem.init 25 25 }).sys.temp := by
    rw [run_simulation_temperatures, List.getD_eq_getD_get?, List.get?_eq_getElem?,
      List.getElem?_map, hloop]
    rfl
  have h2 : (run_simulation Kp Ki Kd target_temp sim_time).heater_powers.getD k 0
      = np_clip ((stepIter target_temp (1 / 10) k
          { pid := PIDController.init Kp Ki Kd target_temp,
            sys := TemperatureSystem.init 25 25 }).pid.update
            ((stepIter target_temp (1 / 10) k
              { pid := PIDController.init Kp Ki Kd target_temp,
                sys := TemperatureSystem.init 25 25 }).sys.temp)
            (1 / 10)).output 0 100 := by
    rw [run_simulation_heater_powers, List.getD_eq_getD_get?, List.get?_eq_getElem?,
      List.getElem?_map, hloop]
    rfl
  exact ⟨h1, by rw [h2, h1]⟩

/-- Witness for `recorded_temperature_pre_update` at the one-step run of
the `main` gains, index `0`: the recorded temperature is the initial
plant temperature. -/
theorem recorded_temperature_pre_update_witness :
    0 < (run_simulation 5 (1 / 10) 1 200 (1 / 10)).temperatures.length
      ∧ ((run_simulation 5 (1 / 10) 1 200 (1 / 10)).temperatures.getD 0 0
            = (stepIter 200 (1 / 10) 0
                { pid := PIDController.init 5 (1 / 10) 1 200,
                  sys := TemperatureSystem.init 25 25 }).sys.temp
          ∧ (run_simulation 5 (1 / 10) 1 200 (1 / 10)).heater_powers.getD 0 0
            = np_clip ((stepIter 200 (1 / 10) 0
                { pid := PIDController.init 5 (1 / 10) 1 200,
                  sys := TemperatureSystem.init 25 25 }).pid.update
                  ((run_simulation 5 (1 / 10) 1 200 (1 / 10)).temperatures.getD 0 0)
                  (1 / 10)).output 0 100) := by
  have hlen : 0 < (run_simulation 5 (1 / 10) 1 200 (1 / 10)).temperatures.length := by
    rw [run_simulation_temperatures, List.length_map, simLoop_length]
    norm_num
  exact ⟨hlen, recorded_temperature_pre_update 5 (1 / 10) 1 200 (1 / 10) 0 hlen⟩

/-- C7: In every run all seven recorded series have the same length
`int(sim_time / 0.1)` (hence are index-aligned), and the scenario-A run
(`Kp=5, Ki=0.1, Kd=1, target 200, sim_time 300`) has exactly 3000
samples, first recorded temperature 25, and every recorded heater power
in `[0, 100]` (out-of-range positions of `getD` read the default 0,
which is also in range). -/
theorem record_series_aligned :
    (∀ Kp Ki Kd target_temp sim_time : ℚ,
        (run_simulation Kp Ki Kd target_temp sim_time).times.length
            = (⌊sim_time / ((1 : ℚ) / 10)⌋).toNat
          ∧ (run_simulation Kp Ki Kd target_temp sim_time).temperatures.length
            = (⌊sim_time / ((1 : ℚ) / 10)⌋).toNat
          ∧ (run_simulation Kp Ki Kd target_temp sim_time).setpoints.length
            = (⌊sim_time / ((1 : ℚ) / 10)⌋).toNat
          ∧ (run_simulation Kp Ki Kd target_temp sim_time).heater_powers.length
            = (⌊sim_time / ((1 : ℚ) / 10)⌋).toNat
          ∧ (run_simulation Kp Ki Kd target_temp sim_time).p_terms.length
            = (⌊sim_time / ((1 : ℚ) / 10)⌋).toNat
          ∧ (run_simulation Kp Ki Kd target_temp sim_time).i_terms.length
            = (⌊sim_time / ((1 : ℚ) / 10)⌋).toNat
          ∧ (run_simulation Kp Ki Kd target_temp sim_time).d_terms.length
            = (⌊sim_time / ((1 : ℚ) / 10)⌋).toNat)
      ∧ (run_simulation 5 (1 / 10) 1 200 300).times.length = 3000
      ∧ (run_simulation 5 (1 / 10) 1 200 300).temperatures.headD 0 = 25
      ∧ ∀ k : ℕ,
          0 ≤ (run_simulation 5 (1 / 10) 1 200 300).heater_powers.getD k 0
            ∧ (run_simulation 5 (1 / 10) 1 200 300).heater_powers.getD k 0 ≤ 100 := by
  have h3000 : ((⌊(300 : ℚ) / ((1 : ℚ) / 10)⌋).toNat) = 3000 := by norm_num; rfl
  refine ⟨?_, ?_, ?_, ?_⟩
  · intro Kp Ki Kd target_temp sim_time
    refine ⟨?_, ?_, ?_, ?_, ?_, ?_, ?_⟩ <;>
      simp [run_simulation, simLoop_length]
  · rw [run_simulation_times, List.length_map, simLoop_length, h3000]
  · rw [run_simulation_temperatures, h3000, show (3000 : ℕ) = 2999 + 1 from rfl,
      simLoop_cons]
    simp [simStep, TemperatureSystem.init]
  · intro k
    rcases lt_or_ge k (run_simulation 5 (1 / 10) 1 200 300).heater_powers.length
      with hk | hk
    · have hmem : (run_simulation 5 (1 / 10) 1 200 300).heater_powers.getD k 0
          ∈ (run_simulation 5 (1 / 10) 1 200 300).heater_powers := by
        rw [List.getD_eq_getElem _ _ hk]
        exact List.getElem_mem hk
      exact run_heater_mem_bounds _ _ _ _ _ _ hmem
    · rw [List.getD_eq_default _ _ hk]
      norm_num

/-! ### The degenerate zero-sample run and the metrics computation -/

theorem run_zero_steps (target_temp : ℚ) (st : SimState) :
    simLoop target_temp (1 / 10) 0 ((⌊(0 : ℚ) / ((1 : ℚ) / 10)⌋).toNat) st = [] := by
  have h0 : ((⌊(0 : ℚ) / ((1 : ℚ) / 10)⌋).toNat) = 0 := by norm_num
  rw [h0]
  rfl

theorem run_sim_zero (Kp Ki Kd target_temp : ℚ) :
    run_simulation Kp Ki Kd target_temp 0
      = { times := [], temperatures := [], setpoints := [], heater_powers := [],
          p_terms := [], i_terms := [], d_terms := [], Kp := Kp, Ki := Ki, Kd := Kd } := by
  simp only [run_simulation]
  rw [run_zero_steps]
  simp

/-- C2 (counterexample): the zero-time run has zero samples, and the
metrics computation applied to it errors (modelled by `none`, the
`IndexError` of reading `setpoints[0]` from an empty array) instead of
returning a report — contradicting the claim that it does not crash. -/
theorem metrics_crash_on_empty :
    (run_simulation 5 (1 / 10) 1 200 0).temperatures.length = 0
      ∧ print_performance (run_simulation 5 (1 / 10) 1 200 0) = none := by
  rw [run_sim_zero]
  exact ⟨rfl, rfl⟩

/-- C2 (amended): running with `sim_time = 0` yields a record whose
seven series are all empty, and the metrics computation applied to it
raises (modelled by `none`: `tolerance = setpoints[0] * 0.02` reads index
0 of the empty setpoint array) rather than reporting settling time not
reached and an NaN mean squared error. -/
theorem run_zero_time_degenerate (Kp Ki Kd target_temp : ℚ) :
    (run_simulation Kp Ki Kd target_temp 0).times = []
      ∧ (run_simulation Kp Ki Kd target_temp 0).temperatures = []
      ∧ (run_simulation Kp Ki Kd target_temp 0).setpoints = []
      ∧ (run_simulation Kp Ki Kd target_temp 0).heater_powers = []
      ∧ (run_simulation Kp Ki Kd target_temp 0).p_terms = []
      ∧ (run_simulation Kp Ki Kd target_temp 0).i_terms = []
      ∧ (run_simulation Kp Ki Kd target_temp 0).d_terms = []
      ∧ print_performance (run_simulation Kp Ki Kd target_temp 0) = none := by
  rw [run_sim_zero]
  exact ⟨rfl, rfl, rfl, rfl, rfl, rfl, rfl, rfl⟩

/-- C1 (code bug): on the one-step run with `target_temp = 25` the error
series is `[0]`, so a first qualifying settling index exists and it is 0
(`steadyStateIdx` returns `some 0`), yet the report prints "not reached"
(`settling_time = none`): the guard `if steady_state_idx:` in
`print_performance` treats the found index 0 like the sentinel `None`. -/
theorem settling_index_zero_reported_not_reached :
    steadyStateIdx
        (List.zipWith (fun s t => s - t)
          (run_simulation 5 (1 / 10) 1 25 (1 / 10)).setpoints
          (run_simulation 5 (1 / 10) 1 25 (1 / 10)).temperatures)
        ((run_simulation 5 (1 / 10) 1 25 (1 / 10)).setpoints.headD 0 * (2 / 100))
        = some 0
      ∧ (print_performance (run_simulation 5 (1 / 10) 1 25 (1 / 10))).map
          (fun r => r.settling_time) = some none := by
  have h1 : ((⌊((1 : ℚ) / 10) / ((1 : ℚ) / 10)⌋).toNat) = 1 := by norm_num
  have hrun : run_simulation 5 (1 / 10) 1 25 (1 / 10)
      = { times := [0], temperatures := [25], setpoints := [25], heater_powers := [0],
          p_terms := [0], i_terms := [0], d_terms := [0],
          Kp := 5, Ki := 1 / 10, Kd := 1 } := by
    simp only [run_simulation]
    rw [h1, show (1 : ℕ) = 0 + 1 from rfl, simLoop_cons]
    norm_num [simLoop, simStep, PIDController.update, PIDController.init,
      TemperatureSystem.init, TemperatureSystem.update, np_clip, min_def, max_def]
  rw [hrun]
  constructor
  · norm_num [steadyStateIdx, steadyGo]
  · norm_num [print_performance, steadyStateIdx, steadyGo, np_max]
